import Mathlib

/-!
Shallow embedding of `src/main.go` (amicitizen_serv): a blacklist cache
service.  Pure Go functions become Lean functions; the bolt key-value store
becomes association lists per bucket; environment effects (HTTP results,
reader errors, storage I/O failures) become explicit input parameters, with
`Option String` standing for Go's `error` (`none` = `nil`).  Machine bytes
are `Nat` values; Go strings are Lean `String`s (the feed data is ASCII, so
Go's byte length coincides with character length on all inputs considered).
-/

namespace Amici

/-- Refresh status, from the `Status` constants in `main.go`. -/
inductive Status where
  | ready
  | processing
  | failed
deriving DecidableEq, Repr

/-- A bolt bucket, modelled as an association list of key/value strings. -/
abbrev Bucket := List (String × String)

/-- `b.Get(k)` followed by `string(v)`: bolt returns `nil` for an absent key,
which the Go code converts to the empty string, so absent keys read as `""`. -/
def bGet (b : Bucket) (k : String) : String :=
  match b with
  | [] => ""
  | (k1, v) :: rest => if k1 = k then v else bGet rest k

/-- `b.Put(k, v)`: bolt overwrites in place if the key exists, otherwise
inserts; keys stay unique. -/
def bPut (b : Bucket) (k v : String) : Bucket :=
  match b with
  | [] => [(k, v)]
  | (k1, v1) :: rest => if k1 = k then (k, v) :: rest else (k1, v1) :: bPut rest k v

/-- The bolt database `db/data.db`: the two buckets used by the program,
`passports` and `ustatus`.  `none` models a bucket that was never created. -/
structure DB where
  passports : Option Bucket
  ustatus : Option Bucket
deriving DecidableEq, Repr

/-- A freshly opened database: no buckets exist yet. -/
def emptyDB : DB := ⟨none, none⟩

/-- `strings.TrimSpace(s)`: drop leading and trailing whitespace.  Defined by
structural recursion on the character list so that it evaluates by kernel
reduction. -/
def trimSpace (s : String) : String :=
  String.mk (((s.data.dropWhile Char.isWhitespace).reverse.dropWhile
    Char.isWhitespace).reverse)

/-- Keys of a bucket. -/
def keys (b : Bucket) : List String := b.map Prod.fst

/-- Number of entries of a bucket carrying a given key. -/
def countKey (b : Bucket) (k : String) : Nat :=
  (b.filter (fun p => p.1 == k)).length

/-- The loop body of `saveToDB`: for each line, `put_if_absent` of the
trimmed line with value `"1"` (insert only when the current value reads
as empty). -/
def saveBucket (b : Bucket) (lines : List String) : Bucket :=
  match lines with
  | [] => b
  | l :: rest =>
    let b1 := if bGet b (trimSpace l) = "" then bPut b (trimSpace l) "1" else b
    saveBucket b1 rest

/-- `saveToDB(db, lines)` from `main.go`: `CreateBucketIfNotExists("passports")`
then the `put_if_absent` loop over the lines. -/
def saveToDB (db : DB) (lines : List String) : DB :=
  ⟨some (saveBucket (db.passports.getD []) lines), db.ustatus⟩

/-- `isBlacklisted(db, num)` from `main.go`.  `viewErr` is the outcome of the
surrounding `db.View` transaction (`none` = the read succeeded); on a failed
transaction the closure has not run, so `blacklisted` keeps its initial
`false` and the error is returned. -/
def isBlacklisted (db : DB) (num : String) (viewErr : Option String) :
    Bool × Option String :=
  match viewErr with
  | some e => (false, some e)
  | none =>
    match db.passports with
    | none => (false, none)
    | some b => if bGet b (trimSpace num) = "" then (false, none) else (true, none)

/-- An HTTP response: status code and body text (`http.Error` sets the code
and writes the message; a bare `res.Write` leaves the default code 200). -/
structure HttpResponse where
  status : Nat
  body : String
deriving DecidableEq, Repr

/-- `handlePassportValid` from `main.go`.  `readErr` models a failure of
`ioutil.ReadAll(req.Body)`, `viewErr` a storage failure of the membership
read. -/
def handlePassportValid (method : String) (body : String) (readErr : Option String)
    (db : DB) (viewErr : Option String) : HttpResponse :=
  if method ≠ "POST" then ⟨400, "Only POST accepted"⟩
  else
    match readErr with
    | some e => ⟨400, e⟩
    | none =>
      if body.length < 9 then ⟨422, "Passport number too short"⟩
      else
        match isBlacklisted db body viewErr with
        | (_, some e) => ⟨500, e⟩
        | (false, none) => ⟨200, "valid"⟩
        | (true, none) => ⟨200, "invalid"⟩

/-- `kickstartUpdate` from `main.go`, as a function of the status observed on
the `syncedStatus` channel (the handler reads it once and puts it back).
Result: the response body written, and whether a refresh signal was sent on
the `updateRequired` channel. -/
def kickstartUpdate (status : Status) : String × Bool :=
  match status with
  | .ready => ("Checking remote for updated dataset", true)
  | .failed => ("Checking remote for updated dataset", true)
  | .processing => ("Update is already in progress", false)

/-- The status register built from `syncStatus`/`syncHelper`: last write
wins, so after a sequence of `set`s the observed status is the last one sent,
or the prior value when nothing was sent. -/
def finalStatus (prior : Status) (sets : List Status) : Status :=
  sets.foldl (fun _ n => n) prior

/-! ### Go `time` values as used by the program

The program formats and parses timestamps exclusively with the RFC1123
layout `"Mon, 02 Jan 2006 15:04:05 MST"`.  We model an instant by its
broken-down fields and compare instants lexicographically (`time.Time.After`;
time zones are elided: the program always formats with the same local zone).
-/

/-- A parsed timestamp. -/
structure GoTime where
  year : Nat
  month : Nat
  day : Nat
  hour : Nat
  minute : Nat
  second : Nat
deriving DecidableEq, Repr

/-- Injective encoding of the broken-down fields (fields are within range
after parsing), giving the instant order. -/
def GoTime.key (t : GoTime) : Nat :=
  ((((t.year * 13 + t.month) * 32 + t.day) * 24 + t.hour) * 60 + t.minute) * 60 + t.second

/-- `a.After(b)` from Go: strictly later. -/
def GoTime.after (a b : GoTime) : Bool := b.key < a.key

/-- The RFC1123 layout constant `time.RFC1123`. -/
def rfc1123Layout : String := "Mon, 02 Jan 2006 15:04:05 MST"

def shortDayNames : List String := ["Sun", "Mon", "Tue", "Wed", "Thu", "Fri", "Sat"]

def shortMonthNames : List String :=
  ["Jan", "Feb", "Mar", "Apr", "May", "Jun", "Jul", "Aug", "Sep", "Oct", "Nov", "Dec"]

def findIdx (s : String) : List String → Option Nat
  | [] => none
  | x :: xs => if x = s then some 0 else (findIdx s xs).map (fun n => n + 1)

def digitVal (c : Char) : Nat := c.toNat - 48

def num2 (a b : Char) : Option Nat :=
  if a.isDigit && b.isDigit then some (digitVal a * 10 + digitVal b) else none

def num4 (a b c d : Char) : Option Nat :=
  if a.isDigit && b.isDigit && c.isDigit && d.isDigit then
    some (((digitVal a * 10 + digitVal b) * 10 + digitVal c) * 10 + digitVal d)
  else none

/-- `time.Parse(time.RFC1123, s)`: fixed-width fields — a valid short day
name (checked for syntax, otherwise ignored), two-digit day, short month
name, four-digit year, `HH:MM:SS`, and an upper-case zone abbreviation.
Field ranges are validated; out-of-shape input returns `none` (an error). -/
def parseRFC1123 (s : String) : Option GoTime :=
  match s.data with
  | w1 :: w2 :: w3 :: ',' :: ' ' :: a1 :: a2 :: ' ' :: m1 :: m2 :: m3 :: ' ' ::
      y1 :: y2 :: y3 :: y4 :: ' ' :: h1 :: h2 :: ':' :: n1 :: n2 :: ':' ::
      e1 :: e2 :: ' ' :: zone =>
    match findIdx (String.mk [w1, w2, w3]) shortDayNames, num2 a1 a2,
        findIdx (String.mk [m1, m2, m3]) shortMonthNames, num4 y1 y2 y3 y4,
        num2 h1 h2, num2 n1 n2, num2 e1 e2 with
    | some _, some d, some mi, some y, some h, some n, some e =>
      if 1 ≤ d && d ≤ 31 && h ≤ 23 && n ≤ 59 && e ≤ 59 && !zone.isEmpty &&
          zone.all (fun c => 'A' ≤ c && c ≤ 'Z') then
        some ⟨y, mi + 1, d, h, n, e⟩
      else none
    | _, _, _, _, _, _, _ => none
  | _ => none

/-- The instant the RFC1123 layout constant itself parses to (the Go
reference time, 2 Jan 2006 15:04:05). -/
def refTime : GoTime := ⟨2006, 1, 2, 15, 4, 5⟩

/-! ### The staleness check and update driver -/

/-- The string `remoteUpdated` ends up parsing: initialized to the layout
constant (`// Placeholder for some moment in past`), replaced by the
persisted `ustatus/updated` value when the `db.View` read succeeds, the
bucket exists and the value is non-empty.  On a failed transaction the
closure has not run, so the placeholder remains. -/
def lastUpdStrOf (db : DB) (viewErr : Option String) : String :=
  if viewErr.isSome then rfc1123Layout
  else
    match db.ustatus with
    | none => rfc1123Layout
    | some b => if bGet b "updated" = "" then rfc1123Layout else bGet b "updated"

/-- `remoteUpdated(remoteTime, db)` from `main.go`.  Note that in the source
the `db.View` error is immediately overwritten by
`lastUpdTime, err := time.Parse(...)`, so only the parse outcome is ever
returned; `viewErr` influences the result solely through the string parsed. -/
def remoteUpdated (remoteTime : GoTime) (db : DB) (viewErr : Option String) :
    Bool × Option String :=
  match parseRFC1123 (lastUpdStrOf db viewErr) with
  | none => (true, some "time parse error")
  | some lastUpdTime =>
    if remoteTime.after lastUpdTime then (true, none) else (false, none)

/-- `setLastUpdated(db)` from `main.go`: overwrite `ustatus/updated` with the
formatted current time.  `nowStr` is the formatted `time.Now()`; `updateErr`
is the outcome of the `db.Update` transaction (on failure it is rolled back
and the database is unchanged). -/
def setLastUpdated (db : DB) (nowStr : String) (updateErr : Option String) :
    DB × Option String :=
  match updateErr with
  | some e => (db, some e)
  | none => (⟨db.passports, some (bPut (db.ustatus.getD []) "updated" nowStr)⟩, none)

/-! ### The download pipeline `downloadUpdate` -/

/-- Environment inputs of one `performUpdate`/`downloadUpdate` run: network
outcomes and storage-layer outcomes, made explicit. -/
structure UpdateEnv where
  /-- Error from building or sending the HEAD probe (`http.NewRequest` or
  `client.Do`); `none` = the probe succeeded. -/
  headErr : Option String
  /-- The `Last-Modified` header value of the probe response (`""` when the
  header is absent). -/
  lastModified : String
  /-- Outcome of the `db.View` read inside `remoteUpdated`. -/
  viewErr : Option String
  /-- Error from `http.Get(from)` in `downloadUpdate`. -/
  getErr : Option String
  /-- The decompressed bytes delivered by the bzip2 reader before it stops. -/
  stream : List Nat
  /-- How the reader stops after the bytes: `none` = clean `io.EOF`, `some e`
  = a read/decompression error. -/
  streamErr : Option String
  /-- Outcome of the n-th `db.Update` batch commit (`saveToDB` call) of the
  run, counting from 0; a failed commit is rolled back by bolt. -/
  commitFail : Nat → Option String
  /-- Outcome of the `db.Update` transaction inside `setLastUpdated`. -/
  metaWriteErr : Option String
  /-- `time.Now().Format(time.RFC1123)` at the end of the run. -/
  nowStr : String

/-- The loop state of `downloadUpdate`: the pending digit run `line`, the
buffered tokens `lines`, the counters, the commit index, and the database. -/
structure DLState where
  line : String
  lines : List String
  savedLines : Nat
  linesRead : Nat
  commits : Nat
  db : DB
deriving DecidableEq, Repr

/-- Initial loop state. -/
def dlInit (db : DB) : DLState := ⟨"", [], 0, 0, 0, db⟩

/-- The digit/newline `switch` of the read loop on byte `c`: a decimal digit
extends the pending run, a newline emits a non-empty pending run into the
buffer, every other byte does nothing. -/
def scanByte (s : DLState) (c : Nat) : DLState :=
  if 48 ≤ c ∧ c ≤ 57 then { s with line := s.line.push (Char.ofNat c) }
  else if c = 10 then
    if s.line ≠ "" then
      { s with lines := s.lines ++ [s.line], line := "",
               savedLines := s.savedLines + 1, linesRead := s.linesRead + 1 }
    else { s with linesRead := s.linesRead + 1 }
  else s

/-- The `savedLines >= 1000` batch flush checked after every byte.  The Go
code ignores the error returned by this in-loop `saveToDB` call: on a failed
commit the batch is rolled back (database unchanged) yet the buffer is
cleared and the loop continues. -/
def flushIfFull (cf : Nat → Option String) (s : DLState) : DLState :=
  if 1000 ≤ s.savedLines then
    { s with db := if (cf s.commits).isSome then s.db else saveToDB s.db s.lines,
             savedLines := 0, lines := [], commits := s.commits + 1 }
  else s

/-- One iteration of the `downloadUpdate` read loop: the `switch`, then the
batch-flush check. -/
def dlStep (cf : Nat → Option String) (s : DLState) (c : Nat) : DLState :=
  flushIfFull cf (scanByte s c)

/-- The whole read loop: fold `dlStep` over the delivered bytes (the loop
exits when the reader reports `io.EOF` or an error). -/
def dlLoop (env : UpdateEnv) (db : DB) : DLState :=
  env.stream.foldl (dlStep env.commitFail) (dlInit db)

/-- The `if len(lines) > 0` flush after the loop: commit the remaining
partial batch; this time the commit error is checked and returned. -/
def flushRemainder (cf : Nat → Option String) (s : DLState) : Option String × DLState :=
  if s.lines = [] then (none, s)
  else
    match cf s.commits with
    | some e => (some e, s)
    | none => (none, { s with db := saveToDB s.db s.lines, lines := [],
                              commits := s.commits + 1 })

/-- `downloadUpdate(from, db)` from `main.go`.  Returns the `(bool, error)`
pair of the source together with the resulting database.  Order of the
source: `http.Get` error, read loop, flush of the remaining partial batch,
only then the check `rdrErr != io.EOF`, and finally `setLastUpdated`. -/
def downloadUpdate (env : UpdateEnv) (db : DB) : Bool × Option String × DB :=
  match env.getErr with
  | some e => (false, some e, db)
  | none =>
    match flushRemainder env.commitFail (dlLoop env db) with
    | (some e, s1) => (false, some e, s1.db)
    | (none, s1) =>
      match env.streamErr with
      | some e => (false, some e, s1.db)
      | none =>
        match setLastUpdated s1.db env.nowStr env.metaWriteErr with
        | (_, some e) => (false, some e, s1.db)
        | (db2, none) => (true, none, db2)

/-! ### The orchestrator `performUpdate` -/

/-- Observable outcome of one `performUpdate` call: the statuses sent on the
`lastStatus` channel in order, whether `downloadUpdate` was invoked, whether
a retry signal was spawned onto `updateRequired`, and the final database. -/
structure UpdateResult where
  statusSets : List Status
  pipelineRan : Bool
  retryEnqueued : Bool
  db : DB
deriving DecidableEq, Repr

/-- `performUpdate(remote, db, lastStatus, updateRequired)` from `main.go`:
HEAD probe, `Last-Modified` parse, `remoteUpdated` staleness check (each
failure sends `failed` and stops), then — only when outdated —
`set(processing)`, `downloadUpdate`, and `set(ready)` on success or
`set(failed)` plus an asynchronous retry signal on failure. -/
def performUpdate (env : UpdateEnv) (db : DB) : UpdateResult :=
  match env.headErr with
  | some _ => ⟨[.failed], false, false, db⟩
  | none =>
    match parseRFC1123 (trimSpace env.lastModified) with
    | none => ⟨[.failed], false, false, db⟩
    | some t =>
      match remoteUpdated t db env.viewErr with
      | (_, some _) => ⟨[.failed], false, false, db⟩
      | (outdated, none) =>
        if outdated then
          match downloadUpdate env db with
          | (success, derr, db1) =>
            if derr.isSome || success == false then ⟨[.processing, .failed], true, true, db1⟩
            else ⟨[.processing, .ready], true, false, db1⟩
        else ⟨[], false, false, db⟩

/-! ### Concrete inputs used when settling the claims -/

/-- The storage oracle in which every batch commit succeeds. -/
def noFail : Nat → Option String := fun _ => none

/-- A download run delivering the decompressed bytes `"1a2\n"` then clean
EOF, with no storage failures. -/
def envTok : UpdateEnv :=
  ⟨none, "", none, none, [49, 97, 50, 10], none, noFail, none, "now"⟩

/-- A download run delivering `"5\n"` and then failing with a decompression
error. -/
def envErr : UpdateEnv :=
  ⟨none, "", none, none, [53, 10], some "unexpected EOF", noFail, none, "now"⟩

/-- A download run delivering `"123456789\n"` then clean EOF. -/
def envIngest : UpdateEnv :=
  ⟨none, "", none, none, [49, 50, 51, 52, 53, 54, 55, 56, 57, 10], none, noFail,
   none, "now"⟩

/-- A signal handling where the HEAD probe reports modification time
10 Apr 2020 10:00:00 and nothing fails; the download would deliver nothing. -/
def envProbe2020 : UpdateEnv :=
  ⟨none, "Fri, 10 Apr 2020 10:00:00 GMT", none, none, [], none, noFail, none, "now"⟩

/-- A download run delivering `"7\n"` then clean EOF, in which every batch
commit fails. -/
def envMidFail : UpdateEnv :=
  ⟨none, "", none, none, [55, 10], none, fun _ => some "commit failed", none, "now"⟩

/-- Persisted metadata holding an unparsable timestamp string. -/
def dbBadMeta : DB := ⟨none, some [("updated", "garbage")]⟩

/-- Persisted metadata equal to the probe time of `envProbe2020`. -/
def dbMeta2020 : DB := ⟨none, some [("updated", "Fri, 10 Apr 2020 10:00:00 GMT")]⟩

/-! ### Supporting lemmas about the store -/

theorem bGet_bPut_self (b : Bucket) (k v : String) : bGet (bPut b k v) k = v := by
  induction b with
  | nil => simp [bPut, bGet]
  | cons hd tl ih =>
    obtain ⟨k1, v1⟩ := hd
    by_cases h : k1 = k
    · simp [bPut, h, bGet]
    · simp [bPut, h, bGet, ih]

theorem bGet_bPut_ne (b : Bucket) (k v k1 : String) (h : k1 ≠ k) :
    bGet (bPut b k v) k1 = bGet b k1 := by
  induction b with
  | nil => simp only [bPut, bGet, if_neg (fun hh : k = k1 => h hh.symm)]
  | cons hd tl ih =>
    obtain ⟨k2, v2⟩ := hd
    by_cases h2 : k2 = k
    · subst h2
      simp only [bPut, if_pos rfl, bGet, if_neg (fun hh : k2 = k1 => h hh.symm)]
    · simp only [bPut, if_neg h2, bGet]
      by_cases h3 : k2 = k1 <;> simp [h3, ih]

theorem mem_keys_of_bGet_ne (b : Bucket) (k : String) (h : bGet b k ≠ "") :
    k ∈ keys b := by
  induction b with
  | nil => simp [bGet] at h
  | cons hd tl ih =>
    obtain ⟨k1, v1⟩ := hd
    by_cases h1 : k1 = k
    · simp [keys, h1]
    · simp only [bGet, if_neg h1] at h
      simp only [keys, List.map_cons, List.mem_cons]
      exact Or.inr (ih h)

theorem countKey_eq_zero (b : Bucket) (k : String) (h : k ∉ keys b) :
    countKey b k = 0 := by
  induction b with
  | nil => rfl
  | cons hd tl ih =>
    obtain ⟨k1, v1⟩ := hd
    simp only [keys, List.map_cons, List.mem_cons, not_or] at h
    have hne : (k1 == k) = false :=
      beq_eq_false_iff_ne.mpr (fun hh => h.1 hh.symm)
    simp only [countKey, List.filter_cons, hne]
    simpa [countKey] using ih h.2

theorem countKey_eq_one (b : Bucket) (k : String) (hnd : (keys b).Nodup)
    (h : k ∈ keys b) : countKey b k = 1 := by
  induction b with
  | nil => simp [keys] at h
  | cons hd tl ih =>
    obtain ⟨k1, v1⟩ := hd
    simp only [keys, List.map_cons, List.nodup_cons] at hnd
    simp only [keys, List.map_cons, List.mem_cons] at h
    by_cases hk : k1 = k
    · subst hk
      have h0 := countKey_eq_zero tl k1 hnd.1
      simp only [countKey] at h0 ⊢
      simp [List.filter_cons, h0]
    · have hmem : k ∈ keys tl := by
        rcases h with h | h
        · exact absurd h.symm hk
        · exact h
      have h1 := ih hnd.2 hmem
      have hne : (k1 == k) = false := beq_eq_false_iff_ne.mpr hk
      simp only [countKey] at h1 ⊢
      simp [List.filter_cons, hne, h1]

theorem keys_bPut (b : Bucket) (k v : String) :
    keys (bPut b k v) = if k ∈ keys b then keys b else keys b ++ [k] := by
  induction b with
  | nil => simp [bPut, keys]
  | cons hd tl ih =>
    obtain ⟨k2, v2⟩ := hd
    by_cases h2 : k2 = k
    · subst h2
      rw [if_pos (by simp [keys])]
      simp [bPut, keys]
    · have hf : bPut ((k2, v2) :: tl) k v = (k2, v2) :: bPut tl k v := by
        simp [bPut, h2]
      rw [hf]
      have hcons : keys ((k2, v2) :: tl) = k2 :: keys tl := rfl
      have hcons2 : keys ((k2, v2) :: bPut tl k v) = k2 :: keys (bPut tl k v) := rfl
      by_cases hmem : k ∈ keys tl
      · rw [if_pos (by simp [hcons, hmem]), hcons2, ih, if_pos hmem, hcons]
      · rw [if_neg (by
          simp only [hcons, List.mem_cons, not_or]
          exact ⟨fun hh => h2 hh.symm, hmem⟩)]
        rw [hcons2, ih, if_neg hmem, hcons]
        simp

theorem mem_keys_bPut (b : Bucket) (k v k1 : String) :
    k1 ∈ keys (bPut b k v) ↔ k1 = k ∨ k1 ∈ keys b := by
  rw [keys_bPut]
  by_cases hmem : k ∈ keys b
  · rw [if_pos hmem]
    constructor
    · exact Or.inr
    · rintro (rfl | h)
      · exact hmem
      · exact h
  · rw [if_neg hmem]
    simp only [List.mem_append, List.mem_singleton]
    tauto

theorem keys_bPut_nodup (b : Bucket) (k v : String) (hnd : (keys b).Nodup) :
    (keys (bPut b k v)).Nodup := by
  rw [keys_bPut]
  by_cases hmem : k ∈ keys b
  · rwa [if_pos hmem]
  · rw [if_neg hmem]
    simp only [List.nodup_append, List.nodup_cons, List.not_mem_nil,
      not_false_eq_true, List.nodup_nil, and_true, true_and, List.nodup_singleton]
    refine ⟨hnd, ?_⟩
    intro a ha hb
    simp only [List.mem_singleton] at hb
    subst hb
    exact hmem ha

theorem bGet_saveBucket_of_ne (b : Bucket) (lines : List String) (k : String)
    (h : bGet b k ≠ "") : bGet (saveBucket b lines) k = bGet b k := by
  induction lines generalizing b with
  | nil => simp [saveBucket]
  | cons l rest ih =>
    simp only [saveBucket]
    by_cases habs : bGet b (trimSpace l) = ""
    · have hne : k ≠ trimSpace l := fun hh => h (hh ▸ habs)
      simp only [if_pos habs]
      rw [ih (bPut b (trimSpace l) "1") (by rwa [bGet_bPut_ne b _ _ k hne]),
          bGet_bPut_ne b _ _ k hne]
    · simp only [if_neg habs]
      exact ih b h

theorem bGet_saveBucket_mem (b : Bucket) (lines : List String) (l : String)
    (hl : l ∈ lines) : bGet (saveBucket b lines) (trimSpace l) ≠ "" := by
  induction lines generalizing b with
  | nil => simp at hl
  | cons l1 rest ih =>
    simp only [saveBucket]
    rcases List.mem_cons.mp hl with h | h
    · subst h
      by_cases habs : bGet b (trimSpace l) = ""
      · simp only [if_pos habs]
        have h1 : bGet (bPut b (trimSpace l) "1") (trimSpace l) = "1" :=
          bGet_bPut_self b _ _
        rw [bGet_saveBucket_of_ne _ rest _ (by simp [h1]), h1]
        simp
      · simp only [if_neg habs]
        rw [bGet_saveBucket_of_ne _ rest _ habs]
        exact habs
    · by_cases habs : bGet b (trimSpace l1) = ""
      · simp only [if_pos habs]
        exact ih _ h
      · simp only [if_neg habs]
        exact ih _ h

theorem keys_saveBucket_nodup (b : Bucket) (lines : List String)
    (hnd : (keys b).Nodup) : (keys (saveBucket b lines)).Nodup := by
  induction lines generalizing b with
  | nil => simpa [saveBucket]
  | cons l rest ih =>
    simp only [saveBucket]
    by_cases habs : bGet b (trimSpace l) = ""
    · simp only [if_pos habs]
      exact ih _ (keys_bPut_nodup b _ _ hnd)
    · simp only [if_neg habs]
      exact ih _ hnd

theorem saveBucket_of_all_present (b : Bucket) (lines : List String)
    (h : ∀ l ∈ lines, bGet b (trimSpace l) ≠ "") : saveBucket b lines = b := by
  induction lines with
  | nil => simp [saveBucket]
  | cons l rest ih =>
    simp only [saveBucket, if_neg (h l (by simp))]
    exact ih (fun l1 hl1 => h l1 (by simp [hl1]))

theorem saveBucket_idem (b : Bucket) (lines : List String) :
    saveBucket (saveBucket b lines) lines = saveBucket b lines :=
  saveBucket_of_all_present _ _ (fun l hl => bGet_saveBucket_mem b lines l hl)

/-! ### Supporting lemmas about the pipeline -/

theorem parseRFC1123_layout : parseRFC1123 rfc1123Layout = some refTime := by
  decide

theorem saveToDB_ustatus (db : DB) (lines : List String) :
    (saveToDB db lines).ustatus = db.ustatus := rfl

theorem scanByte_db (s : DLState) (c : Nat) : (scanByte s c).db = s.db := by
  unfold scanByte
  split
  · rfl
  · split
    · split <;> rfl
    · rfl

theorem flushIfFull_ustatus (cf : Nat → Option String) (s : DLState) :
    (flushIfFull cf s).db.ustatus = s.db.ustatus := by
  unfold flushIfFull
  split
  · by_cases h : (cf s.commits).isSome <;> simp [h, saveToDB]
  · rfl

theorem dlStep_ustatus (cf : Nat → Option String) (s : DLState) (c : Nat) :
    (dlStep cf s c).db.ustatus = s.db.ustatus := by
  unfold dlStep
  rw [flushIfFull_ustatus, scanByte_db]

theorem foldl_dlStep_ustatus (cf : Nat → Option String) (l : List Nat)
    (s : DLState) : (l.foldl (dlStep cf) s).db.ustatus = s.db.ustatus := by
  induction l generalizing s with
  | nil => rfl
  | cons c rest ih =>
    rw [List.foldl_cons, ih, dlStep_ustatus]

theorem dlLoop_ustatus (env : UpdateEnv) (db : DB) :
    (dlLoop env db).db.ustatus = db.ustatus :=
  foldl_dlStep_ustatus env.commitFail env.stream (dlInit db)

theorem flushRemainder_ustatus (cf : Nat → Option String) (s : DLState) :
    (flushRemainder cf s).2.db.ustatus = s.db.ustatus := by
  unfold flushRemainder
  split
  · rfl
  · split <;> simp [saveToDB]

theorem remoteUpdated_absent (t : GoTime) (db : DB)
    (habs : db.ustatus = none ∨ ∃ b, db.ustatus = some b ∧ bGet b "updated" = "") :
    remoteUpdated t db none = (t.after refTime, none) := by
  have hstr : lastUpdStrOf db none = rfc1123Layout := by
    rcases habs with h | ⟨b, hb, hv⟩
    · simp [lastUpdStrOf, h]
    · simp [lastUpdStrOf, hb, hv]
  simp only [remoteUpdated, hstr, parseRFC1123_layout]
  cases h : t.after refTime <;> simp [h]

theorem isBlacklisted_err_none (db : DB) (num : String) :
    (isBlacklisted db num none).2 = none := by
  unfold isBlacklisted
  cases db.passports
  · rfl
  · dsimp only
    split <;> rfl

theorem handle_valid_lookup (body : String) (db : DB) (h9 : 9 ≤ body.length) :
    handlePassportValid "POST" body none db none =
      if bGet (db.passports.getD []) (trimSpace body) = "" then ⟨200, "valid"⟩
      else ⟨200, "invalid"⟩ := by
  have hlt : ¬ body.length < 9 := by omega
  unfold handlePassportValid isBlacklisted
  cases hp : db.passports with
  | none => simp [hlt, hp, bGet]
  | some b =>
    simp only [hp, Option.getD]
    by_cases hb : bGet b (trimSpace body) = "" <;> simp [hlt, hb]

theorem flushRemainder_ok (cf : Nat → Option String) (s : DLState)
    (hcf : ∀ n, cf n = none) :
    (flushRemainder cf s).1 = none ∧
    (flushRemainder cf s).2.db =
      if s.lines = [] then s.db else saveToDB s.db s.lines := by
  unfold flushRemainder
  split
  next h => simp [h]
  next h =>
    rw [hcf s.commits]
    simp [h]

theorem flushIfFull_small (cf : Nat → Option String) (s : DLState)
    (h : s.savedLines < 1000) : flushIfFull cf s = s := by
  unfold flushIfFull
  rw [if_neg (Nat.not_le.mpr h)]

/-- Claim C1 counterexample: with the persisted `ustatus/updated` value
`"garbage"` — present but unparsable — and a well-formed probe response,
`performUpdate` sends `failed` and stops: the Pipeline is not run and
`processing` is never set, contradicting the claim that an unparsable
persisted timestamp forces a refresh. -/
theorem C1_counterexample :
    parseRFC1123 "garbage" = none ∧
    performUpdate envProbe2020 dbBadMeta = ⟨[.failed], false, false, dbBadMeta⟩ := by
  constructor
  · decide
  · decide

/-- Claim C1 amended: when the persisted timestamp is absent the check
substitutes the RFC1123 layout constant, which itself parses to the
reference time 2 Jan 2006, so the dataset counts as outdated exactly when
the remote time is strictly after that reference time (and when it is, the
Pipeline runs after `set(processing)`); when the persisted value is present
but unparsable, the check returns a parse error and `handle_signal` sets
`failed` and stops without running the Pipeline. -/
theorem C1_stale_default (env : UpdateEnv) (db : DB) (t : GoTime) :
    ((db.ustatus = none ∨ ∃ b, db.ustatus = some b ∧ bGet b "updated" = "") →
      remoteUpdated t db none = (t.after refTime, none)) ∧
    ((db.ustatus = none ∨ ∃ b, db.ustatus = some b ∧ bGet b "updated" = "") →
      env.headErr = none → parseRFC1123 (trimSpace env.lastModified) = some t →
      env.viewErr = none → t.after refTime = true →
      (performUpdate env db).pipelineRan = true ∧
      (performUpdate env db).statusSets.head? = some .processing) ∧
    (∀ b : Bucket, env.headErr = none →
      parseRFC1123 (trimSpace env.lastModified) = some t → env.viewErr = none →
      db.ustatus = some b → bGet b "updated" ≠ "" →
      parseRFC1123 (bGet b "updated") = none →
      performUpdate env db = ⟨[.failed], false, false, db⟩) := by
  refine ⟨remoteUpdated_absent t db, ?_, ?_⟩
  · intro habs h1 h2 h3 h4
    have hru : remoteUpdated t db none = (true, none) := by
      rw [remoteUpdated_absent t db habs, h4]
    rcases hdl : downloadUpdate env db with ⟨succ, derr, db1⟩
    simp only [performUpdate, h1, h2, h3, hru, hdl]
    constructor <;> (split <;> (try split) <;> simp_all)
  · intro b h1 h2 h3 hb hne hparse
    have hstr : lastUpdStrOf db none = bGet b "updated" := by
      simp [lastUpdStrOf, hb, hne]
    have hru : remoteUpdated t db none = (true, some "time parse error") := by
      simp only [remoteUpdated, hstr, hparse]
    simp only [performUpdate, h1, h2, h3, hru]

/-- Claim C1 witness: with no persisted metadata and remote time
10 Apr 2020, the Pipeline is run and `processing` is set first. -/
theorem C1_stale_default_witness :
    (performUpdate envProbe2020 emptyDB).pipelineRan = true ∧
    (performUpdate envProbe2020 emptyDB).statusSets.head? = some .processing :=
  (C1_stale_default envProbe2020 emptyDB ⟨2020, 4, 10, 10, 0, 0⟩).2.1
    (Or.inl rfl) rfl (by decide) rfl (by decide)

/-- Claim C2 counterexample: on the byte stream `"1a2\n"` the letter does
not end the digit run — the run stores the single merged token `"12"`, and
neither `"1"` nor `"2"` is stored, contradicting the claim that a non-digit
non-newline byte ends the current digit run. -/
theorem C2_counterexample :
    downloadUpdate envTok emptyDB =
      (true, none, ⟨some [("12", "1")], some [("updated", "now")]⟩) ∧
    bGet [("12", "1")] "1" = "" ∧ bGet [("12", "1")] "2" = "" := by
  refine ⟨by decide, by decide, by decide⟩

/-- Claim C2 amended: in the read loop a digit byte appends to the pending
token, a newline emits a non-empty pending token into the buffer, and every
other byte is discarded WITHOUT ending the pending digit run — the state is
unchanged — so digit runs on either side of such a byte merge into one
token. -/
theorem C2_tokenizer (cf : Nat → Option String) (s : DLState) (c : Nat)
    (hcap : s.savedLines < 1000) :
    (48 ≤ c → c ≤ 57 →
      dlStep cf s c = { s with line := s.line.push (Char.ofNat c) }) ∧
    (c = 10 → s.line ≠ "" → s.savedLines + 1 < 1000 →
      dlStep cf s c =
        { s with lines := s.lines ++ [s.line], line := "",
                 savedLines := s.savedLines + 1, linesRead := s.linesRead + 1 }) ∧
    (c = 10 → s.line = "" →
      dlStep cf s c = { s with linesRead := s.linesRead + 1 }) ∧
    (¬ (48 ≤ c ∧ c ≤ 57) → c ≠ 10 → dlStep cf s c = s) := by
  refine ⟨?_, ?_, ?_, ?_⟩
  · intro h1 h2
    have hscan : scanByte s c = { s with line := s.line.push (Char.ofNat c) } := by
      unfold scanByte
      rw [if_pos (show 48 ≤ c ∧ c ≤ 57 from ⟨h1, h2⟩)]
    unfold dlStep
    rw [hscan]
    exact flushIfFull_small cf _ hcap
  · intro h1 h2 h3
    subst h1
    have hscan : scanByte s 10 =
        { s with lines := s.lines ++ [s.line], line := "",
                 savedLines := s.savedLines + 1, linesRead := s.linesRead + 1 } := by
      unfold scanByte
      rw [if_neg (by decide : ¬ (48 ≤ 10 ∧ (10 : Nat) ≤ 57)), if_pos rfl, if_pos h2]
    unfold dlStep
    rw [hscan]
    exact flushIfFull_small cf _ h3
  · intro h1 h2
    subst h1
    have hscan : scanByte s 10 = { s with linesRead := s.linesRead + 1 } := by
      unfold scanByte
      rw [if_neg (by decide : ¬ (48 ≤ 10 ∧ (10 : Nat) ≤ 57)), if_pos rfl,
          if_neg (not_not_intro h2)]
    unfold dlStep
    rw [hscan]
    exact flushIfFull_small cf _ hcap
  · intro h1 h2
    have hscan : scanByte s c = s := by
      unfold scanByte
      rw [if_neg h1, if_neg h2]
    unfold dlStep
    rw [hscan]
    exact flushIfFull_small cf _ hcap

/-- Claim C2 witness: the byte `'a'` (97) leaves the loop state untouched. -/
theorem C2_tokenizer_witness :
    dlStep noFail (dlInit emptyDB) 97 = dlInit emptyDB :=
  (C2_tokenizer noFail (dlInit emptyDB) 97 (by decide)).2.2.2 (by decide) (by decide)

/-- Claim C3 counterexample: a run delivering `"5\n"` and then a
decompression error returns failure — yet the buffered token `"5"` IS
committed to the store before the error is inspected, contradicting the
claim that the unflushed remainder of buffered tokens is lost. -/
theorem C3_counterexample :
    downloadUpdate envErr emptyDB =
      (false, some "unexpected EOF", ⟨some [("5", "1")], none⟩) := by
  decide

/-- Claim C3 amended: end-of-stream is success — the remaining partial batch
is committed and the metadata written; on any other read/decompression error
the run returns failure with that error, but the remaining buffered tokens
are ALSO committed as a final batch before the error is inspected (only the
trailing digit run not yet terminated by a newline is dropped), and the
metadata timestamp is not written. -/
theorem C3_partial_failure (env : UpdateEnv) (db : DB)
    (hget : env.getErr = none) (hcf : ∀ n, env.commitFail n = none) :
    (env.streamErr = none → env.metaWriteErr = none →
      downloadUpdate env db =
        (true, none,
          (setLastUpdated (flushRemainder env.commitFail (dlLoop env db)).2.db
            env.nowStr none).1)) ∧
    (∀ e, env.streamErr = some e →
      downloadUpdate env db =
        (false, some e,
          if (dlLoop env db).lines = [] then (dlLoop env db).db
          else saveToDB (dlLoop env db).db (dlLoop env db).lines) ∧
      (downloadUpdate env db).2.2.ustatus = db.ustatus) := by
  have hfl := flushRemainder_ok env.commitFail (dlLoop env db) hcf
  rcases hq : flushRemainder env.commitFail (dlLoop env db) with ⟨ferr, s1⟩
  rw [hq] at hfl
  obtain ⟨h1, h2⟩ := hfl
  dsimp only at h1 h2
  subst h1
  constructor
  · intro hse hmw
    simp only [downloadUpdate, hget, hq, hse, hmw, setLastUpdated]
  · intro e hse
    constructor
    · simp only [downloadUpdate, hget, hq, hse]
      rw [← h2]
    · simp only [downloadUpdate, hget, hq, hse]
      have hu := flushRemainder_ustatus env.commitFail (dlLoop env db)
      rw [hq] at hu
      dsimp only at hu
      rw [hu, dlLoop_ustatus]

/-- Claim C3 witness: the clean-EOF run ingesting `"123456789"` succeeds and
its result evaluates to the store holding that identifier plus the metadata
stamp. -/
theorem C3_partial_failure_witness :
    downloadUpdate envIngest emptyDB =
      (true, none,
        (setLastUpdated (flushRemainder envIngest.commitFail
          (dlLoop envIngest emptyDB)).2.db envIngest.nowStr none).1) ∧
    downloadUpdate envIngest emptyDB =
      (true, none, ⟨some [("123456789", "1")], some [("updated", "now")]⟩) :=
  ⟨(C3_partial_failure envIngest emptyDB rfl (fun _ => rfl)).1 rfl rfl, by decide⟩

/-- Claim C4 counterexample: a storage failure of the metadata read inside
the staleness check is discarded — `remoteUpdated` returns `(true, none)`,
outdated with no error, even though the `db.View` transaction failed,
because the source overwrites the `View` error with the `time.Parse`
result. -/
theorem C4_counterexample :
    remoteUpdated ⟨2020, 4, 10, 10, 0, 0⟩ emptyDB (some "disk read error") =
      (true, none) := by
  decide

/-- Claim C4 amended: storage errors are propagated by the final
partial-batch commit, by the metadata write after a successful download and
by the membership read (HTTP 500) — but NOT by the in-loop 1000-token batch
commit, whose error the code discards while still clearing the buffer, and
NOT by the metadata read of the staleness check, whose error is overwritten
by the timestamp parse so the check proceeds as if the metadata were
absent. -/
theorem C4_storage_errors (env : UpdateEnv) (db : DB) (s : DLState)
    (body e : String) (t : GoTime) :
    (env.getErr = none → (dlLoop env db).lines ≠ [] →
      env.commitFail (dlLoop env db).commits = some e →
      downloadUpdate env db = (false, some e, (dlLoop env db).db)) ∧
    (env.getErr = none → (∀ n, env.commitFail n = none) → env.streamErr = none →
      env.metaWriteErr = some e →
      downloadUpdate env db =
        (false, some e, (flushRemainder env.commitFail (dlLoop env db)).2.db)) ∧
    (9 ≤ body.length →
      handlePassportValid "POST" body none db (some e) = ⟨500, e⟩) ∧
    (s.savedLines = 999 → s.line ≠ "" → env.commitFail s.commits = some e →
      dlStep env.commitFail s 10 =
        { s with line := "", lines := [], savedLines := 0,
                 linesRead := s.linesRead + 1, commits := s.commits + 1 }) ∧
    remoteUpdated t db (some e) = (t.after refTime, none) := by
  refine ⟨?_, ?_, ?_, ?_, ?_⟩
  · intro hget hne hcf
    simp only [downloadUpdate, hget, flushRemainder, if_neg hne, hcf]
  · intro hget hcf hse hmw
    have hfl := flushRemainder_ok env.commitFail (dlLoop env db) hcf
    rcases hq : flushRemainder env.commitFail (dlLoop env db) with ⟨ferr, s1⟩
    rw [hq] at hfl
    obtain ⟨h1, h2⟩ := hfl
    dsimp only at h1
    subst h1
    simp only [downloadUpdate, hget, hq, hse, hmw, setLastUpdated]
  · intro h9
    have hlt : ¬ body.length < 9 := by omega
    simp [handlePassportValid, isBlacklisted, hlt]
  · intro hsl hline hcf
    have hscan : scanByte s 10 =
        { s with lines := s.lines ++ [s.line], line := "",
                 savedLines := s.savedLines + 1, linesRead := s.linesRead + 1 } := by
      unfold scanByte
      rw [if_neg (by decide : ¬ (48 ≤ 10 ∧ (10 : Nat) ≤ 57)), if_pos rfl,
          if_pos hline]
    unfold dlStep
    rw [hscan]
    unfold flushIfFull
    rw [if_pos (show (1000 : Nat) ≤ s.savedLines + 1 by omega), hcf]
    simp
  · have hstr : lastUpdStrOf db (some e) = rfc1123Layout := by
      simp [lastUpdStrOf]
    simp only [remoteUpdated, hstr, parseRFC1123_layout]
    cases h : t.after refTime <;> simp [h]

/-- Claim C4 witness: a failing membership read yields HTTP 500 with the
error text, and a run whose final partial-batch commit fails returns that
error with the store unchanged. -/
theorem C4_storage_errors_witness :
    handlePassportValid "POST" "123456789" none emptyDB (some "disk i-o fault") =
      ⟨500, "disk i-o fault"⟩ ∧
    downloadUpdate envMidFail emptyDB =
      (false, some "commit failed", (dlLoop envMidFail emptyDB).db) :=
  ⟨(C4_storage_errors envIngest emptyDB (dlInit emptyDB) "123456789"
      "disk i-o fault" refTime).2.2.1 (by decide),
   (C4_storage_errors envMidFail emptyDB (dlInit emptyDB) "x" "commit failed"
      refTime).1 rfl (by decide) rfl⟩

/-- Claim C5 counterexample: remote modification time equal to the persisted
timestamp and prior status `failed` — the Pipeline is not invoked, but the
status after the check is still `failed`, not `ready`, contradicting the
claim that the status ends as `ready`. -/
theorem C5_counterexample :
    (performUpdate envProbe2020 dbMeta2020).pipelineRan = false ∧
    finalStatus .failed (performUpdate envProbe2020 dbMeta2020).statusSets =
      .failed := by
  constructor
  · decide
  · decide

/-- Claim C5 amended: when the remote time is not strictly after the
parseable persisted timestamp, the Pipeline is not invoked, no download
occurs and no status transition is performed at all — the register keeps its
prior value, so the status is `ready` after the check only if it already
was. -/
theorem C5_staleness_gate (env : UpdateEnv) (db : DB) (t lt : GoTime) (b : Bucket)
    (h1 : env.headErr = none)
    (h2 : parseRFC1123 (trimSpace env.lastModified) = some t)
    (h3 : env.viewErr = none)
    (h4 : db.ustatus = some b)
    (h5 : bGet b "updated" ≠ "")
    (h6 : parseRFC1123 (bGet b "updated") = some lt)
    (h7 : t.after lt = false) :
    performUpdate env db = ⟨[], false, false, db⟩ ∧
    ∀ prior : Status, finalStatus prior (performUpdate env db).statusSets = prior := by
  have hstr : lastUpdStrOf db none = bGet b "updated" := by
    simp [lastUpdStrOf, h4, h5]
  have hru : remoteUpdated t db none = (false, none) := by
    simp only [remoteUpdated, hstr, h6, h7]
    simp
  have hmain : performUpdate env db = ⟨[], false, false, db⟩ := by
    simp only [performUpdate, h1, h2, h3, hru]
    simp
  exact ⟨hmain, fun prior => by rw [hmain]; rfl⟩

/-- Claim C5 witness: remote time equal to the persisted 10 Apr 2020
timestamp — `performUpdate` does nothing. -/
theorem C5_staleness_gate_witness :
    performUpdate envProbe2020 dbMeta2020 = ⟨[], false, false, dbMeta2020⟩ :=
  (C5_staleness_gate envProbe2020 dbMeta2020 ⟨2020, 4, 10, 10, 0, 0⟩
    ⟨2020, 4, 10, 10, 0, 0⟩ [("updated", "Fri, 10 Apr 2020 10:00:00 GMT")]
    rfl (by decide) rfl rfl (by decide) (by decide) (by decide)).1

/-- Claim C6: ingest is idempotent — committing a batch containing an
identifier leaves exactly one entry for its trimmed form, re-committing the
same batch is a no-op on the store, the membership query is unchanged by the
repetition, and a `put_if_absent` never alters the value of an identifier
already present. -/
theorem C6_idempotent_ingest (b : Bucket) (db : DB) (lines : List String)
    (l : String) (hnd : (keys b).Nodup) (hl : l ∈ lines) :
    countKey (saveBucket b lines) (trimSpace l) = 1 ∧
    saveToDB (saveToDB db lines) lines = saveToDB db lines ∧
    (∀ num viewErr,
      isBlacklisted (saveToDB (saveToDB db lines) lines) num viewErr =
        isBlacklisted (saveToDB db lines) num viewErr) ∧
    (∀ k, bGet b k ≠ "" → bGet (saveBucket b lines) k = bGet b k) := by
  have hidem : saveToDB (saveToDB db lines) lines = saveToDB db lines := by
    simp [saveToDB, saveBucket_idem]
  refine ⟨?_, hidem, fun num viewErr => by rw [hidem], ?_⟩
  · exact countKey_eq_one _ _ (keys_saveBucket_nodup b lines hnd)
      (mem_keys_of_bGet_ne _ _ (bGet_saveBucket_mem b lines l hl))
  · exact fun k hk => bGet_saveBucket_of_ne b lines k hk

/-- Claim C6 witness: ingesting `"123456789"` into the empty bucket twice
leaves exactly one entry. -/
theorem C6_idempotent_ingest_witness :
    countKey (saveBucket [] ["123456789"]) (trimSpace "123456789") = 1 :=
  (C6_idempotent_ingest [] emptyDB ["123456789"] "123456789"
    (by simp [keys]) (by simp)).1

/-- Claim C7: request validation for `POST /` — a non-POST method is
answered 400 without consulting the store, a body of at most 8 characters is
answered 422 likewise, and a body of at least 9 characters proceeds to the
store lookup; failed validation causes no state change (the handler never
writes, and its response is independent of the store contents). -/
theorem C7_request_validation (method body : String) (db : DB)
    (viewErr : Option String) :
    (method ≠ "POST" →
      handlePassportValid method body none db viewErr =
        ⟨400, "Only POST accepted"⟩) ∧
    (body.length < 9 →
      handlePassportValid "POST" body none db viewErr =
        ⟨422, "Passport number too short"⟩) ∧
    (9 ≤ body.length →
      handlePassportValid "POST" body none db none =
        if (isBlacklisted db body none).1 then ⟨200, "invalid"⟩
        else ⟨200, "valid"⟩) := by
  refine ⟨?_, ?_, ?_⟩
  · intro h
    simp [handlePassportValid, h]
  · intro h
    simp [handlePassportValid, h]
  · intro h9
    have hlt : ¬ body.length < 9 := by omega
    rw [handle_valid_lookup body db h9]
    unfold isBlacklisted
    cases hp : db.passports with
    | none => simp [bGet]
    | some bb =>
      dsimp only [Option.getD]
      by_cases hb : bGet bb (trimSpace body) = "" <;> simp [hb]

/-- Claim C7 witness: the boundary cases — a GET is 400, an 8-character body
is 422, a 9-character body reaches the lookup. -/
theorem C7_request_validation_witness :
    handlePassportValid "GET" "123456789" none emptyDB none =
      ⟨400, "Only POST accepted"⟩ ∧
    handlePassportValid "POST" "12345678" none emptyDB none =
      ⟨422, "Passport number too short"⟩ ∧
    handlePassportValid "POST" "123456789" none emptyDB none =
      if (isBlacklisted emptyDB "123456789" none).1 then ⟨200, "invalid"⟩
      else ⟨200, "valid"⟩ :=
  ⟨(C7_request_validation "GET" "123456789" emptyDB none).1 (by decide),
   (C7_request_validation "POST" "12345678" emptyDB none).2.1 (by decide),
   (C7_request_validation "POST" "123456789" emptyDB none).2.2 (by decide)⟩

/-- Claim C8: for a valid `POST /` request the response body is `"valid"`
exactly when the trimmed identifier reads as absent from the `passports`
namespace and `"invalid"` exactly when present; the empty store answers
`"valid"`, and after a refresh ingesting `"123456789"` the same query
answers `"invalid"`. -/
theorem C8_membership_response (body : String) (db : DB) (h9 : 9 ≤ body.length) :
    (handlePassportValid "POST" body none db none = ⟨200, "valid"⟩ ↔
      bGet (db.passports.getD []) (trimSpace body) = "") ∧
    (handlePassportValid "POST" body none db none = ⟨200, "invalid"⟩ ↔
      bGet (db.passports.getD []) (trimSpace body) ≠ "") ∧
    handlePassportValid "POST" "123456789" none emptyDB none = ⟨200, "valid"⟩ ∧
    handlePassportValid "POST" "123456789" none
      (downloadUpdate envIngest emptyDB).2.2 none = ⟨200, "invalid"⟩ := by
  have hmain := handle_valid_lookup body db h9
  refine ⟨?_, ?_, by decide, by decide⟩
  · rw [hmain]
    by_cases hb : bGet (db.passports.getD []) (trimSpace body) = "" <;> simp [hb]
  · rw [hmain]
    by_cases hb : bGet (db.passports.getD []) (trimSpace body) = "" <;> simp [hb]

/-- Claim C8 witness: the empty-store query for `"123456789"` answers
`"valid"` and, via the equivalence, the key reads as absent. -/
theorem C8_membership_response_witness :
    handlePassportValid "POST" "123456789" none emptyDB none = ⟨200, "valid"⟩ ∧
    bGet (emptyDB.passports.getD []) (trimSpace "123456789") = "" :=
  ⟨(C8_membership_response "123456789" emptyDB (by decide)).2.2.1,
   (C8_membership_response "123456789" emptyDB (by decide)).1.mp
     (C8_membership_response "123456789" emptyDB (by decide)).2.2.1⟩

/-- Claim C9: `POST /update` — an observed status of `ready` or `failed`
enqueues one refresh signal and answers "Checking remote for updated
dataset"; an observed `processing` enqueues nothing and answers "Update is
already in progress". -/
theorem C9_update_endpoint :
    kickstartUpdate .ready = ("Checking remote for updated dataset", true) ∧
    kickstartUpdate .failed = ("Checking remote for updated dataset", true) ∧
    kickstartUpdate .processing = ("Update is already in progress", false) := by
  refine ⟨rfl, rfl, rfl⟩

/-- Claim C10: the 9-character minimum is enforced on the raw body before
trimming while the lookup trims — a body of length at least 9 whose trimmed
form is shorter than 9 passes validation and is answered from the membership
of the trimmed identifier instead of being rejected with 422. -/
theorem C10_raw_length_trimmed_lookup (body : String) (db : DB)
    (h9 : 9 ≤ body.length) (hshort : (trimSpace body).length < 9) :
    handlePassportValid "POST" body none db none =
      if bGet (db.passports.getD []) (trimSpace body) = "" then ⟨200, "valid"⟩
      else ⟨200, "invalid"⟩ :=
  handle_valid_lookup body db h9

/-- Claim C10 witness: the 9-byte body `"12345678 "` trims to 8 characters,
passes validation and is answered `"valid"` against the empty store. -/
theorem C10_raw_length_trimmed_lookup_witness :
    9 ≤ ("12345678 " : String).length ∧
    (trimSpace "12345678 ").length < 9 ∧
    handlePassportValid "POST" "12345678 " none emptyDB none = ⟨200, "valid"⟩ := by
  refine ⟨by decide, by decide, ?_⟩
  rw [C10_raw_length_trimmed_lookup "12345678 " emptyDB (by decide) (by decide)]
  decide

end Amici
